import Mathlib

/-
Verification development for the events-api client (Go package `api`).

Embedding conventions:
- JSON bodies are modelled as already-parsed `Json` trees; a response body
  that is not syntactically valid JSON is modelled as `none`.
- `time.Time` values are modelled by their RFC3339 string rendering; Go's
  `time.Time.UnmarshalJSON` requires a JSON string (and keeps the previous
  value on JSON null), which the model mirrors at the string level.
- Go's `encoding/json` field matching is case-insensitive on the struct tag;
  unknown fields are ignored; `null` leaves a field at its previous value
  except for pointers (set to nil) and slices (set to nil).
- The HTTP response body is a stream with a closed flag: reading a closed
  body fails (net/http returns `http: read on closed response body`).
-/

namespace EventsAPI

/-- JSON value trees, as produced by parsing a response body. Numbers are
modelled as integers, which covers every numeric field of the schemas
(`used_version` is a uint32). -/
inductive Json where
  | null : Json
  | bool (b : Bool) : Json
  | num (n : Int) : Json
  | str (s : String) : Json
  | arr (elems : List Json) : Json
  | obj (fields : List (String × Json)) : Json

/-- `SignInAttemptDetails` from the source: `{ value string }`. -/
structure SignInAttemptDetails where
  value : String
deriving DecidableEq

/-- `SignInAttemptTargetUser` from the source. -/
structure SignInAttemptTargetUser where
  uuid : String
  name : String
  email : String
deriving DecidableEq

/-- `SignInAttemptClient` from the source. -/
structure SignInAttemptClient where
  appName : String
  appVersion : String
  platformName : String
  platformVersion : String
  osName : String
  osVersion : String
  ipAddress : String
deriving DecidableEq

/-- `SignInAttempt` from the source; `details` is a nullable pointer,
modelled as `Option`. The timestamp is the RFC3339 rendering of the Go
`time.Time`. -/
structure SignInAttempt where
  uuid : String
  sessionUuid : String
  timestamp : String
  country : String
  category : String
  type : String
  details : Option SignInAttemptDetails
  targetUser : SignInAttemptTargetUser
  client : SignInAttemptClient
deriving DecidableEq

/-- `SignInAttemptResponse` from the source: one page of the sign-in
attempt stream. -/
structure SignInAttemptResponse where
  cursor : String
  hasMore : Bool
  items : List SignInAttempt
deriving DecidableEq

/-- `ItemUsageUser` from the source. -/
structure ItemUsageUser where
  uuid : String
  name : String
  email : String
deriving DecidableEq

/-- `ItemUsageClient` from the source. -/
structure ItemUsageClient where
  appName : String
  appVersion : String
  platformName : String
  platformVersion : String
  osName : String
  osVersion : String
  ipAddress : String
deriving DecidableEq

/-- `ItemUsage` from the source; `usedVersion` is a Go uint32, modelled as
a natural number below 2^32 (the decoder enforces the range). -/
structure ItemUsage where
  uuid : String
  timestamp : String
  usedVersion : Nat
  vaultUuid : String
  itemUuid : String
  user : ItemUsageUser
  client : ItemUsageClient
deriving DecidableEq

/-- `ItemUsageResponse` from the source: one page of the item-usage
stream. -/
structure ItemUsageResponse where
  cursor : String
  hasMore : Bool
  items : List ItemUsage
deriving DecidableEq

/-- `IntrospectResponse` from the source. -/
structure IntrospectResponse where
  uuid : String
  issuedAt : String
  features : List String
deriving DecidableEq

/-- Go `encoding/json` matches an incoming object key against a struct tag
exactly or, failing that, case-insensitively; the tags of every struct here
are pairwise distinct even case-insensitively, so the match reduces to a
case-insensitive comparison. -/
def keyMatches (key tag : String) : Bool :=
  key.data.map Char.toLower == tag.data.map Char.toLower

/-- Decoding a JSON value into a Go `string` field: a JSON string replaces
the value, JSON null leaves the previous value, anything else is a type
error. -/
def decodeStringField (j : Json) (cur : String) : Except String String :=
  match j with
  | .str s => .ok s
  | .null => .ok cur
  | _ => .error "cannot unmarshal into field of type string"

/-- Decoding a JSON value into a Go `bool` field. -/
def decodeBoolField (j : Json) (cur : Bool) : Except String Bool :=
  match j with
  | .bool b => .ok b
  | .null => .ok cur
  | _ => .error "cannot unmarshal into field of type bool"

/-- Decoding a JSON value into a Go `uint32` field: Go rejects numbers
outside [0, 2^32). -/
def decodeUInt32Field (j : Json) (cur : Nat) : Except String Nat :=
  match j with
  | .num n => if 0 ≤ n ∧ n < 4294967296 then .ok n.toNat
              else .error "cannot unmarshal number into field of type uint32"
  | .null => .ok cur
  | _ => .error "cannot unmarshal into field of type uint32"

/-- Decoding a JSON value into a Go `time.Time` field:
`time.Time.UnmarshalJSON` requires a JSON string and explicitly no-ops on
JSON null. The RFC3339 syntax check is abstracted away: the model keeps the
string itself. -/
def decodeTimeField (j : Json) (cur : String) : Except String String :=
  match j with
  | .str s => .ok s
  | .null => .ok cur
  | _ => .error "Time.UnmarshalJSON: input is not a JSON string"

/-- Decoding a JSON value into a Go `[]string` field: JSON null sets the
slice to nil; an array decodes element-wise (a null element leaves the
zero string). -/
def decodeStringList (j : Json) (_cur : List String) : Except String (List String) :=
  match j with
  | .null => .ok []
  | .arr xs => xs.mapM (fun e => decodeStringField e "")
  | _ => .error "cannot unmarshal into field of type []string"

/-- Fold one incoming object entry into a `SignInAttemptDetails` value. -/
def setSignInAttemptDetailsField (acc : SignInAttemptDetails) (kv : String × Json) :
    Except String SignInAttemptDetails :=
  if keyMatches kv.1 "value" then
    (decodeStringField kv.2 acc.value).map (fun s => { acc with value := s })
  else .ok acc

/-- Decode a JSON value into a `SignInAttemptDetails` struct, starting from
the given current value (Go decodes objects field-by-field in order, later
duplicate keys overwriting earlier ones; unknown keys are ignored). -/
def decodeSignInAttemptDetails (j : Json) (cur : SignInAttemptDetails) :
    Except String SignInAttemptDetails :=
  match j with
  | .obj fs => fs.foldlM setSignInAttemptDetailsField cur
  | .null => .ok cur
  | _ => .error "cannot unmarshal into SignInAttemptDetails"

/-- Decoding a JSON value into the Go `*SignInAttemptDetails` pointer
field: JSON null sets the pointer to nil, an object allocates (or reuses)
the pointee and decodes into it. -/
def decodeDetailsPtr (j : Json) (cur : Option SignInAttemptDetails) :
    Except String (Option SignInAttemptDetails) :=
  match j with
  | .null => .ok none
  | .obj fs => (fs.foldlM setSignInAttemptDetailsField (cur.getD ⟨""⟩)).map some
  | _ => .error "cannot unmarshal into *SignInAttemptDetails"

/-- Fold one incoming object entry into a `SignInAttemptTargetUser`. -/
def setSignInAttemptTargetUserField (acc : SignInAttemptTargetUser) (kv : String × Json) :
    Except String SignInAttemptTargetUser :=
  if keyMatches kv.1 "uuid" then
    (decodeStringField kv.2 acc.uuid).map (fun s => { acc with uuid := s })
  else if keyMatches kv.1 "name" then
    (decodeStringField kv.2 acc.name).map (fun s => { acc with name := s })
  else if keyMatches kv.1 "email" then
    (decodeStringField kv.2 acc.email).map (fun s => { acc with email := s })
  else .ok acc

/-- Decode a JSON value into a `SignInAttemptTargetUser`. -/
def decodeSignInAttemptTargetUser (j : Json) (cur : SignInAttemptTargetUser) :
    Except String SignInAttemptTargetUser :=
  match j with
  | .obj fs => fs.foldlM setSignInAttemptTargetUserField cur
  | .null => .ok cur
  | _ => .error "cannot unmarshal into SignInAttemptTargetUser"

/-- Fold one incoming object entry into a `SignInAttemptClient`. -/
def setSignInAttemptClientField (acc : SignInAttemptClient) (kv : String × Json) :
    Except String SignInAttemptClient :=
  if keyMatches kv.1 "app_name" then
    (decodeStringField kv.2 acc.appName).map (fun s => { acc with appName := s })
  else if keyMatches kv.1 "app_version" then
    (decodeStringField kv.2 acc.appVersion).map (fun s => { acc with appVersion := s })
  else if keyMatches kv.1 "platform_name" then
    (decodeStringField kv.2 acc.platformName).map (fun s => { acc with platformName := s })
  else if keyMatches kv.1 "platform_version" then
    (decodeStringField kv.2 acc.platformVersion).map (fun s => { acc with platformVersion := s })
  else if keyMatches kv.1 "os_name" then
    (decodeStringField kv.2 acc.osName).map (fun s => { acc with osName := s })
  else if keyMatches kv.1 "os_version" then
    (decodeStringField kv.2 acc.osVersion).map (fun s => { acc with osVersion := s })
  else if keyMatches kv.1 "ip_address" then
    (decodeStringField kv.2 acc.ipAddress).map (fun s => { acc with ipAddress := s })
  else .ok acc

/-- Decode a JSON value into a `SignInAttemptClient`. -/
def decodeSignInAttemptClient (j : Json) (cur : SignInAttemptClient) :
    Except String SignInAttemptClient :=
  match j with
  | .obj fs => fs.foldlM setSignInAttemptClientField cur
  | .null => .ok cur
  | _ => .error "cannot unmarshal into SignInAttemptClient"

/-- The Go zero value of `SignInAttempt`: empty strings, the zero time,
a nil `details` pointer and zero-valued nested structs. -/
def zeroSignInAttempt : SignInAttempt :=
  { uuid := "", sessionUuid := "", timestamp := "0001-01-01T00:00:00Z",
    country := "", category := "", type := "", details := none,
    targetUser := { uuid := "", name := "", email := "" },
    client := { appName := "", appVersion := "", platformName := "",
                platformVersion := "", osName := "", osVersion := "",
                ipAddress := "" } }

/-- Fold one incoming object entry into a `SignInAttempt`. -/
def setSignInAttemptField (acc : SignInAttempt) (kv : String × Json) :
    Except String SignInAttempt :=
  if keyMatches kv.1 "uuid" then
    (decodeStringField kv.2 acc.uuid).map (fun s => { acc with uuid := s })
  else if keyMatches kv.1 "session_uuid" then
    (decodeStringField kv.2 acc.sessionUuid).map (fun s => { acc with sessionUuid := s })
  else if keyMatches kv.1 "timestamp" then
    (decodeTimeField kv.2 acc.timestamp).map (fun s => { acc with timestamp := s })
  else if keyMatches kv.1 "country" then
    (decodeStringField kv.2 acc.country).map (fun s => { acc with country := s })
  else if keyMatches kv.1 "category" then
    (decodeStringField kv.2 acc.category).map (fun s => { acc with category := s })
  else if keyMatches kv.1 "type" then
    (decodeStringField kv.2 acc.type).map (fun s => { acc with type := s })
  else if keyMatches kv.1 "details" then
    (decodeDetailsPtr kv.2 acc.details).map (fun s => { acc with details := s })
  else if keyMatches kv.1 "target_user" then
    (decodeSignInAttemptTargetUser kv.2 acc.targetUser).map (fun s => { acc with targetUser := s })
  else if keyMatches kv.1 "client" then
    (decodeSignInAttemptClient kv.2 acc.client).map (fun s => { acc with client := s })
  else .ok acc

/-- Decode a JSON value into a `SignInAttempt` (one stream item). -/
def decodeSignInAttempt (j : Json) : Except String SignInAttempt :=
  match j with
  | .obj fs => fs.foldlM setSignInAttemptField zeroSignInAttempt
  | .null => .ok zeroSignInAttempt
  | _ => .error "cannot unmarshal into SignInAttempt"

/-- Fold one incoming object entry into a `SignInAttemptResponse`. -/
def setSignInAttemptResponseField (acc : SignInAttemptResponse) (kv : String × Json) :
    Except String SignInAttemptResponse :=
  if keyMatches kv.1 "cursor" then
    (decodeStringField kv.2 acc.cursor).map (fun s => { acc with cursor := s })
  else if keyMatches kv.1 "has_more" then
    (decodeBoolField kv.2 acc.hasMore).map (fun s => { acc with hasMore := s })
  else if keyMatches kv.1 "items" then
    ((match kv.2 with
      | .null => .ok []
      | .arr xs => xs.mapM decodeSignInAttempt
      | _ => .error "cannot unmarshal into field of type []SignInAttempt" :
        Except String (List SignInAttempt))).map
      (fun s => { acc with items := s })
  else .ok acc

/-- Decode the sign-in attempts page schema `{cursor, has_more, items[]}`. -/
def decodeSignInAttemptResponse (j : Json) : Except String SignInAttemptResponse :=
  match j with
  | .obj fs => fs.foldlM setSignInAttemptResponseField ⟨"", false, []⟩
  | .null => .ok ⟨"", false, []⟩
  | _ => .error "cannot unmarshal into SignInAttemptResponse"

/-- Fold one incoming object entry into an `ItemUsageUser`. -/
def setItemUsageUserField (acc : ItemUsageUser) (kv : String × Json) :
    Except String ItemUsageUser :=
  if keyMatches kv.1 "uuid" then
    (decodeStringField kv.2 acc.uuid).map (fun s => { acc with uuid := s })
  else if keyMatches kv.1 "name" then
    (decodeStringField kv.2 acc.name).map (fun s => { acc with name := s })
  else if keyMatches kv.1 "email" then
    (decodeStringField kv.2 acc.email).map (fun s => { acc with email := s })
  else .ok acc

/-- Decode a JSON value into an `ItemUsageUser`. -/
def decodeItemUsageUser (j : Json) (cur : ItemUsageUser) : Except String ItemUsageUser :=
  match j with
  | .obj fs => fs.foldlM setItemUsageUserField cur
  | .null => .ok cur
  | _ => .error "cannot unmarshal into ItemUsageUser"

/-- Fold one incoming object entry into an `ItemUsageClient`. -/
def setItemUsageClientField (acc : ItemUsageClient) (kv : String × Json) :
    Except String ItemUsageClient :=
  if keyMatches kv.1 "app_name" then
    (decodeStringField kv.2 acc.appName).map (fun s => { acc with appName := s })
  else if keyMatches kv.1 "app_version" then
    (decodeStringField kv.2 acc.appVersion).map (fun s => { acc with appVersion := s })
  else if keyMatches kv.1 "platform_name" then
    (decodeStringField kv.2 acc.platformName).map (fun s => { acc with platformName := s })
  else if keyMatches kv.1 "platform_version" then
    (decodeStringField kv.2 acc.platformVersion).map (fun s => { acc with platformVersion := s })
  else if keyMatches kv.1 "os_name" then
    (decodeStringField kv.2 acc.osName).map (fun s => { acc with osName := s })
  else if keyMatches kv.1 "os_version" then
    (decodeStringField kv.2 acc.osVersion).map (fun s => { acc with osVersion := s })
  else if keyMatches kv.1 "ip_address" then
    (decodeStringField kv.2 acc.ipAddress).map (fun s => { acc with ipAddress := s })
  else .ok acc

/-- Decode a JSON value into an `ItemUsageClient`. -/
def decodeItemUsageClient (j : Json) (cur : ItemUsageClient) : Except String ItemUsageClient :=
  match j with
  | .obj fs => fs.foldlM setItemUsageClientField cur
  | .null => .ok cur
  | _ => .error "cannot unmarshal into ItemUsageClient"

/-- The Go zero value of `ItemUsage`. -/
def zeroItemUsage : ItemUsage :=
  { uuid := "", timestamp := "0001-01-01T00:00:00Z", usedVersion := 0,
    vaultUuid := "", itemUuid := "",
    user := { uuid := "", name := "", email := "" },
    client := { appName := "", appVersion := "", platformName := "",
                platformVersion := "", osName := "", osVersion := "",
                ipAddress := "" } }

/-- Fold one incoming object entry into an `ItemUsage`. -/
def setItemUsageField (acc : ItemUsage) (kv : String × Json) : Except String ItemUsage :=
  if keyMatches kv.1 "uuid" then
    (decodeStringField kv.2 acc.uuid).map (fun s => { acc with uuid := s })
  else if keyMatches kv.1 "timestamp" then
    (decodeTimeField kv.2 acc.timestamp).map (fun s => { acc with timestamp := s })
  else if keyMatches kv.1 "used_version" then
    (decodeUInt32Field kv.2 acc.usedVersion).map (fun s => { acc with usedVersion := s })
  else if keyMatches kv.1 "vault_uuid" then
    (decodeStringField kv.2 acc.vaultUuid).map (fun s => { acc with vaultUuid := s })
  else if keyMatches kv.1 "item_uuid" then
    (decodeStringField kv.2 acc.itemUuid).map (fun s => { acc with itemUuid := s })
  else if keyMatches kv.1 "user" then
    (decodeItemUsageUser kv.2 acc.user).map (fun s => { acc with user := s })
  else if keyMatches kv.1 "client" then
    (decodeItemUsageClient kv.2 acc.client).map (fun s => { acc with client := s })
  else .ok acc

/-- Decode a JSON value into an `ItemUsage` (one stream item). -/
def decodeItemUsage (j : Json) : Except String ItemUsage :=
  match j with
  | .obj fs => fs.foldlM setItemUsageField zeroItemUsage
  | .null => .ok zeroItemUsage
  | _ => .error "cannot unmarshal into ItemUsage"

/-- Fold one incoming object entry into an `ItemUsageResponse`. -/
def setItemUsageResponseField (acc : ItemUsageResponse) (kv : String × Json) :
    Except String ItemUsageResponse :=
  if keyMatches kv.1 "cursor" then
    (decodeStringField kv.2 acc.cursor).map (fun s => { acc with cursor := s })
  else if keyMatches kv.1 "has_more" then
    (decodeBoolField kv.2 acc.hasMore).map (fun s => { acc with hasMore := s })
  else if keyMatches kv.1 "items" then
    ((match kv.2 with
      | .null => .ok []
      | .arr xs => xs.mapM decodeItemUsage
      | _ => .error "cannot unmarshal into field of type []ItemUsage" :
        Except String (List ItemUsage))).map
      (fun s => { acc with items := s })
  else .ok acc

/-- Decode the item-usages page schema `{cursor, has_more, items[]}`. -/
def decodeItemUsageResponse (j : Json) : Except String ItemUsageResponse :=
  match j with
  | .obj fs => fs.foldlM setItemUsageResponseField ⟨"", false, []⟩
  | .null => .ok ⟨"", false, []⟩
  | _ => .error "cannot unmarshal into ItemUsageResponse"

/-- Fold one incoming object entry into an `IntrospectResponse` (tags are
`UUID`, `IssuedAt`, `Features`). -/
def setIntrospectResponseField (acc : IntrospectResponse) (kv : String × Json) :
    Except String IntrospectResponse :=
  if keyMatches kv.1 "UUID" then
    (decodeStringField kv.2 acc.uuid).map (fun s => { acc with uuid := s })
  else if keyMatches kv.1 "IssuedAt" then
    (decodeTimeField kv.2 acc.issuedAt).map (fun s => { acc with issuedAt := s })
  else if keyMatches kv.1 "Features" then
    (decodeStringList kv.2 acc.features).map (fun s => { acc with features := s })
  else .ok acc

/-- Decode the introspection schema `{UUID, IssuedAt, Features[]}`. -/
def decodeIntrospectResponse (j : Json) : Except String IntrospectResponse :=
  match j with
  | .obj fs => fs.foldlM setIntrospectResponseField ⟨"", "0001-01-01T00:00:00Z", []⟩
  | .null => .ok ⟨"", "0001-01-01T00:00:00Z", []⟩
  | _ => .error "cannot unmarshal into IntrospectResponse"

/-- Modelled from the spec: JWT claims as decoded from the bearer token by
`utils.ParseJWTClaims`, whose source is not part of this package. The spec
describes the claims only as carrying (at minimum) a routing claim that
resolves to the tenant base URL, so they are modelled as an opaque map of
claim names to values. -/
structure JWTClaims where
  claims : List (String × String)
deriving DecidableEq

/-- An HTTP request as built by `newAPIRequest`: method, full URL, optional
raw body (`strings.NewReader(cursor)` for the POST calls, nil for the GET
call), and headers in insertion order. -/
structure Request where
  method : String
  url : String
  body : Option String
  headers : List (String × String)
deriving DecidableEq

/-- An HTTP response as returned by `httpClient.Do`: numeric status code,
raw status line (Go's `response.Status`, e.g. `"403 Forbidden"`), and the
body bytes, given as `some j` when they parse as the JSON value `j` and
`none` when they are not valid JSON. -/
structure HttpResponse where
  statusCode : Nat
  status : String
  bodyJson : Option Json

/-- The environment of external collaborators the package imports:
`utils.ParseJWTClaims` and `JWTClaims.GetEventsURL` (repository code not in
this package, modelled from the spec as section 4.1's
`resolve(credential) -> BaseURL | fails(CredentialError)`, split into its
two calls as in the source), the build version string `version.Version`,
and the success predicate of Go's `http.NewRequestWithContext` URL parsing
(`urlOK url = false` models an unparseable URL; the methods used are the
constants GET and POST and the context is caller-supplied, so URL parsing
is the only failure source at these call sites). -/
structure Env where
  parseJWTClaims : String → Except String JWTClaims
  getEventsURL : JWTClaims → Except String String
  version : String
  urlOK : String → Bool

/-- `DefaultUserAgent` from the source:
`"1Password Events API Beats / " + version.Version`. -/
def DefaultUserAgent (env : Env) : String :=
  "1Password Events API Beats / " ++ env.version

/-- The `Client` struct from the source: its only field is the underlying
`*http.Client`, modelled by the observable behaviour of its `Do` method
(the retrying transport): for each request, either a transport error (in
which case Go's `Do` returns no usable response) or a final response. -/
structure Client where
  httpClient : Request → Except String HttpResponse

/-- `http.NewRequestWithContext` at the call site in `newAPIRequest`: when
the URL parses, Go returns a request with exactly the given method, URL and
body and an empty header map; otherwise it returns a nil request and an
error. -/
def newRequestWithContext (env : Env) (method url : String) (body : Option String) :
    Option Request :=
  if env.urlOK url then some { method := method, url := url, body := body, headers := [] }
  else none

/-- `request.Header.Add(key, value)`. -/
def headerAdd (r : Request) (key value : String) : Request :=
  { r with headers := r.headers ++ [(key, value)] }

/-- The possible outcomes of `newAPIRequest`: an error from credential
parsing or URL resolution, a nil-pointer dereference (the construction
error of `http.NewRequestWithContext` is discarded by `request, _ := ...`,
so a construction failure leaves `request` nil and the following
`request.Header.Add` dereferences a nil pointer), or a built request. -/
inductive ReqResult where
  | err (e : String) : ReqResult
  | nilDeref : ReqResult
  | ok (r : Request) : ReqResult
deriving DecidableEq

/-- `newAPIRequest` from the source: parse the JWT claims, resolve the
events URL, build the request for `url ++ path`, and add the
`Authorization` and `User-Agent` headers. -/
def newAPIRequest (env : Env) (method bearerToken path : String) (body : Option String) :
    ReqResult :=
  match env.parseJWTClaims bearerToken with
  | .error e => .err e
  | .ok jwt =>
    match env.getEventsURL jwt with
    | .error e => .err e
    | .ok url =>
      match newRequestWithContext env method (url ++ path) body with
      | none => .nilDeref
      | some request =>
        .ok (headerAdd (headerAdd request "Authorization" ("Bearer " ++ bearerToken))
              "User-Agent" (DefaultUserAgent env))

/-- The typed error taxonomy of the three operations, one constructor per
`return nil, ...` shape in the source, carrying the data the formatted
error string embeds. -/
inductive ApiError where
  | newRequestFailed (e : String) : ApiError
  | transportFailed (e : String) : ApiError
  | unexpectedStatus (status : String) : ApiError
  | decodeFailed (e : String) : ApiError
deriving DecidableEq

/-- How an operation ends: either a Go return (a typed result or error) or
a runtime crash (the nil-pointer dereference of `ReqResult.nilDeref`). -/
inductive Outcome (α : Type) where
  | crashed : Outcome α
  | returned (r : Except ApiError α) : Outcome α

/-- The full observable behaviour of one operation call: its outcome, the
requests handed to the transport (at most one; empty when the call failed
before any HTTP request was issued), and — when a response was received —
whether its body was closed by the time the operation exited. -/
structure OpResult (α : Type) where
  outcome : Outcome α
  issued : List Request
  bodyClosedAtExit : Option Bool

/-- Reading the response body (as `json.NewDecoder(body).Decode` does):
reading an already-closed net/http body fails regardless of content;
otherwise the bytes must parse as a JSON value. -/
def readBody (closed : Bool) (content : Option Json) : Except String Json :=
  if closed then .error "http: read on closed response body"
  else
    match content with
    | some j => .ok j
    | none => .error "invalid JSON body"

/-- `Introspect` from the source. Note the source closes the response body
immediately after `Do` succeeds (`_ = response.Body.Close()`), before the
status check and before the decoder reads the body, so the decode step
always reads a closed body. -/
def introspect (env : Env) (c : Client) (bearerToken : String) :
    OpResult IntrospectResponse :=
  match newAPIRequest env "GET" bearerToken "/api/auth/introspect" none with
  | .err e => ⟨.returned (.error (.newRequestFailed e)), [], none⟩
  | .nilDeref => ⟨.crashed, [], none⟩
  | .ok request =>
    match c.httpClient request with
    | .error e => ⟨.returned (.error (.transportFailed e)), [request], none⟩
    | .ok response =>
      if response.statusCode ≠ 200 then
        ⟨.returned (.error (.unexpectedStatus response.status)), [request], some true⟩
      else
        match readBody true response.bodyJson with
        | .error e => ⟨.returned (.error (.decodeFailed e)), [request], some true⟩
        | .ok j =>
          match decodeIntrospectResponse j with
          | .error e => ⟨.returned (.error (.decodeFailed e)), [request], some true⟩
          | .ok v => ⟨.returned (.ok v), [request], some true⟩

/-- `SignInAttempts` from the source: POST the raw cursor to
`/api/v1/signinattempts`, with `defer response.Body.Close()`, so the body
is open while the decoder reads it and closed on every exit path. -/
def signInAttempts (env : Env) (c : Client) (bearerToken cursor : String) :
    OpResult SignInAttemptResponse :=
  match newAPIRequest env "POST" bearerToken "/api/v1/signinattempts" (some cursor) with
  | .err e => ⟨.returned (.error (.newRequestFailed e)), [], none⟩
  | .nilDeref => ⟨.crashed, [], none⟩
  | .ok request =>
    match c.httpClient request with
    | .error e => ⟨.returned (.error (.transportFailed e)), [request], none⟩
    | .ok response =>
      if response.statusCode ≠ 200 then
        ⟨.returned (.error (.unexpectedStatus response.status)), [request], some true⟩
      else
        match readBody false response.bodyJson with
        | .error e => ⟨.returned (.error (.decodeFailed e)), [request], some true⟩
        | .ok j =>
          match decodeSignInAttemptResponse j with
          | .error e => ⟨.returned (.error (.decodeFailed e)), [request], some true⟩
          | .ok v => ⟨.returned (.ok v), [request], some true⟩

/-- `ItemUsages` from the source: POST the raw cursor to
`/api/v1/itemusages`, with `defer response.Body.Close()`. -/
def itemUsages (env : Env) (c : Client) (bearerToken cursor : String) :
    OpResult ItemUsageResponse :=
  match newAPIRequest env "POST" bearerToken "/api/v1/itemusages" (some cursor) with
  | .err e => ⟨.returned (.error (.newRequestFailed e)), [], none⟩
  | .nilDeref => ⟨.crashed, [], none⟩
  | .ok request =>
    match c.httpClient request with
    | .error e => ⟨.returned (.error (.transportFailed e)), [request], none⟩
    | .ok response =>
      if response.statusCode ≠ 200 then
        ⟨.returned (.error (.unexpectedStatus response.status)), [request], some true⟩
      else
        match readBody false response.bodyJson with
        | .error e => ⟨.returned (.error (.decodeFailed e)), [request], some true⟩
        | .ok j =>
          match decodeItemUsageResponse j with
          | .error e => ⟨.returned (.error (.decodeFailed e)), [request], some true⟩
          | .ok v => ⟨.returned (.ok v), [request], some true⟩

/-- The statefully-read view of `SignInAttempts`: the Go method has a
pointer receiver but never writes through it, so the client value after
the call is the client value before it. -/
def signInAttemptsS (env : Env) (c : Client) (bearerToken cursor : String) :
    OpResult SignInAttemptResponse × Client :=
  (signInAttempts env c bearerToken cursor, c)

/-- `json.Marshal` of `SignInAttemptDetails`. -/
def encodeSignInAttemptDetails (d : SignInAttemptDetails) : Json :=
  .obj [("value", .str d.value)]

/-- `json.Marshal` of `SignInAttemptTargetUser`. -/
def encodeSignInAttemptTargetUser (u : SignInAttemptTargetUser) : Json :=
  .obj [("uuid", .str u.uuid), ("name", .str u.name), ("email", .str u.email)]

/-- `json.Marshal` of `SignInAttemptClient`. -/
def encodeSignInAttemptClient (c : SignInAttemptClient) : Json :=
  .obj [("app_name", .str c.appName), ("app_version", .str c.appVersion),
        ("platform_name", .str c.platformName),
        ("platform_version", .str c.platformVersion),
        ("os_name", .str c.osName), ("os_version", .str c.osVersion),
        ("ip_address", .str c.ipAddress)]

/-- `json.Marshal` of `SignInAttempt`: fields in struct order under their
tags; none of the tags has `omitempty`, so a nil `details` pointer encodes
as an explicit JSON null, and the `time.Time` encodes as its RFC3339
string. -/
def encodeSignInAttempt (a : SignInAttempt) : Json :=
  .obj [("uuid", .str a.uuid), ("session_uuid", .str a.sessionUuid),
        ("timestamp", .str a.timestamp), ("country", .str a.country),
        ("category", .str a.category), ("type", .str a.type),
        ("details",
          match a.details with
          | none => .null
          | some d => encodeSignInAttemptDetails d),
        ("target_user", encodeSignInAttemptTargetUser a.targetUser),
        ("client", encodeSignInAttemptClient a.client)]

/-- A concrete claims value for instantiations. -/
def sampleClaims : JWTClaims :=
  ⟨[("events_url", "https://events.example.com")]⟩

/-- An environment whose token parses, resolves and builds successfully. -/
def okEnv : Env :=
  { parseJWTClaims := fun _ => .ok sampleClaims
    getEventsURL := fun _ => .ok "https://events.example.com"
    version := "1.2.3"
    urlOK := fun _ => true }

/-- An environment whose bearer token is undecodable. -/
def badTokenEnv : Env :=
  { parseJWTClaims := fun _ => .error "failed to decode token"
    getEventsURL := fun _ => .error "events url claim not found"
    version := "1.2.3"
    urlOK := fun _ => true }

/-- An environment whose token decodes but lacks the events-URL routing
claim. -/
def noClaimEnv : Env :=
  { parseJWTClaims := fun _ => .ok sampleClaims
    getEventsURL := fun _ => .error "events url claim not found"
    version := "1.2.3"
    urlOK := fun _ => true }

/-- An environment whose token decodes and yields an events URL, but one on
which Go URL parsing fails (e.g. a claim value with no scheme), so
`http.NewRequestWithContext` returns a nil request and an error. -/
def badURLEnv : Env :=
  { parseJWTClaims := fun _ => .ok sampleClaims
    getEventsURL := fun _ => .ok "://missing-scheme"
    version := "1.2.3"
    urlOK := fun _ => false }

/-- A well-formed introspection body. -/
def introBody : Json :=
  .obj [("UUID", .str "token-uuid"),
        ("IssuedAt", .str "2023-05-01T12:00:00Z"),
        ("Features", .arr [.str "signinattempts", .str "itemusages"])]

/-- A transport that answers every request with 200 and the well-formed
introspection body. -/
def introspect200Client : Client :=
  ⟨fun _ => .ok ⟨200, "200 OK", some introBody⟩⟩

/-- A transport that answers every request with 403 Forbidden. -/
def forbiddenClient : Client :=
  ⟨fun _ => .ok ⟨403, "403 Forbidden", some (.obj [])⟩⟩

/-- A batch body whose `items` array contains an element that is not an
object, so the batch decoders fail on it. -/
def badItemsBody : Json :=
  .obj [("cursor", .str "c1"), ("has_more", .bool false),
        ("items", .arr [.num 5])]

/-- A transport that answers every request with 200 and the undecodable
batch body. -/
def badItemsClient : Client :=
  ⟨fun _ => .ok ⟨200, "200 OK", some badItemsBody⟩⟩

/-- The fields of a well-formed sign-in attempt object with no `details`
key. -/
def noDetailsFields : List (String × Json) :=
  [("uuid", .str "E1"), ("session_uuid", .str "S1"),
   ("timestamp", .str "2023-05-01T12:00:00Z"),
   ("country", .str "CA"), ("category", .str "success"),
   ("type", .str "credentials_ok"),
   ("target_user",
     .obj [("uuid", .str "U1"), ("name", .str "Alice"),
           ("email", .str "alice@example.com")]),
   ("client", .obj [("app_name", .str "1Password")])]

/-- If mapping a function over an `Except` yields `ok`, the original was
`ok` and the result is its image. -/
theorem exceptMap_eq_ok {ε α β : Type} {f : α → β} {x : Except ε α} {b : β}
    (h : x.map f = .ok b) : ∃ a, x = .ok a ∧ b = f a := by
  cases x with
  | error e => simp [Except.map] at h
  | ok a => exact ⟨a, rfl, by simpa [Except.map] using h.symm⟩

/-- When the token parses, the events URL resolves and the URL is
well-formed, `newAPIRequest` returns exactly the request with the given
method, the resolved URL concatenated with the path, the given body, and
the two headers in insertion order. -/
theorem newAPIRequest_ok (env : Env) (tok : String) (jwt : JWTClaims)
    (base method path : String) (body : Option String)
    (hp : env.parseJWTClaims tok = .ok jwt)
    (hu : env.getEventsURL jwt = .ok base)
    (hurl : env.urlOK (base ++ path) = true) :
    newAPIRequest env method tok path body =
      .ok { method := method, url := base ++ path, body := body,
            headers := [("Authorization", "Bearer " ++ tok),
                        ("User-Agent", DefaultUserAgent env)] } := by
  simp [newAPIRequest, newRequestWithContext, hp, hu, hurl, headerAdd]

/-- When the token parses and resolves but the concatenated URL does not
parse, the discarded construction error leaves a nil request and the
header call dereferences it. -/
theorem newAPIRequest_nilDeref (env : Env) (tok : String) (jwt : JWTClaims)
    (base method path : String) (body : Option String)
    (hp : env.parseJWTClaims tok = .ok jwt)
    (hu : env.getEventsURL jwt = .ok base)
    (hurl : env.urlOK (base ++ path) = false) :
    newAPIRequest env method tok path body = .nilDeref := by
  simp [newAPIRequest, newRequestWithContext, hp, hu, hurl]

/-- Once the token parses and the events URL resolves, `newAPIRequest`
never returns an error value, whatever happens during request
construction. -/
theorem newAPIRequest_ne_err (env : Env) (tok : String) (jwt : JWTClaims)
    (base method path : String) (body : Option String)
    (hp : env.parseJWTClaims tok = .ok jwt)
    (hu : env.getEventsURL jwt = .ok base) :
    ∀ e, newAPIRequest env method tok path body ≠ .err e := by
  intro e
  cases hurl : env.urlOK (base ++ path) with
  | false => rw [newAPIRequest_nilDeref env tok jwt base method path body hp hu hurl]
             exact fun h => ReqResult.noConfusion h
  | true => rw [newAPIRequest_ok env tok jwt base method path body hp hu hurl]
            exact fun h => ReqResult.noConfusion h

/-- `Introspect` hands exactly its built request to the transport. -/
theorem introspect_issued_of_ok (env : Env) (c : Client) (tok : String) (req : Request)
    (h : newAPIRequest env "GET" tok "/api/auth/introspect" none = .ok req) :
    (introspect env c tok).issued = [req] := by
  unfold introspect
  rw [h]
  dsimp only
  cases hdo : c.httpClient req with
  | error e => rfl
  | ok resp =>
    dsimp only
    split
    · rfl
    · split <;> try rfl
      split <;> rfl

/-- `SignInAttempts` hands exactly its built request to the transport. -/
theorem signInAttempts_issued_of_ok (env : Env) (c : Client) (tok cur : String)
    (req : Request)
    (h : newAPIRequest env "POST" tok "/api/v1/signinattempts" (some cur) = .ok req) :
    (signInAttempts env c tok cur).issued = [req] := by
  unfold signInAttempts
  rw [h]
  dsimp only
  cases hdo : c.httpClient req with
  | error e => rfl
  | ok resp =>
    dsimp only
    split
    · rfl
    · split <;> try rfl
      split <;> rfl

/-- `ItemUsages` hands exactly its built request to the transport. -/
theorem itemUsages_issued_of_ok (env : Env) (c : Client) (tok cur : String)
    (req : Request)
    (h : newAPIRequest env "POST" tok "/api/v1/itemusages" (some cur) = .ok req) :
    (itemUsages env c tok cur).issued = [req] := by
  unfold itemUsages
  rw [h]
  dsimp only
  cases hdo : c.httpClient req with
  | error e => rfl
  | ok resp =>
    dsimp only
    split
    · rfl
    · split <;> try rfl
      split <;> rfl

/-- Whenever the transport returns a response to `Introspect`, the body is
closed by the time the call exits, on every path. -/
theorem introspect_closed_of_response (env : Env) (c : Client) (tok : String)
    (req : Request) (resp : HttpResponse)
    (h : newAPIRequest env "GET" tok "/api/auth/introspect" none = .ok req)
    (hdo : c.httpClient req = .ok resp) :
    (introspect env c tok).bodyClosedAtExit = some true := by
  unfold introspect
  rw [h]
  dsimp only
  rw [hdo]
  dsimp only
  split
  · rfl
  · split <;> try rfl
    split <;> rfl

/-- Whenever the transport returns a response to `SignInAttempts`, the
deferred close has run by the time the call exits, on every path. -/
theorem signInAttempts_closed_of_response (env : Env) (c : Client) (tok cur : String)
    (req : Request) (resp : HttpResponse)
    (h : newAPIRequest env "POST" tok "/api/v1/signinattempts" (some cur) = .ok req)
    (hdo : c.httpClient req = .ok resp) :
    (signInAttempts env c tok cur).bodyClosedAtExit = some true := by
  unfold signInAttempts
  rw [h]
  dsimp only
  rw [hdo]
  dsimp only
  split
  · rfl
  · split <;> try rfl
    split <;> rfl

/-- Whenever the transport returns a response to `ItemUsages`, the
deferred close has run by the time the call exits, on every path. -/
theorem itemUsages_closed_of_response (env : Env) (c : Client) (tok cur : String)
    (req : Request) (resp : HttpResponse)
    (h : newAPIRequest env "POST" tok "/api/v1/itemusages" (some cur) = .ok req)
    (hdo : c.httpClient req = .ok resp) :
    (itemUsages env c tok cur).bodyClosedAtExit = some true := by
  unfold itemUsages
  rw [h]
  dsimp only
  rw [hdo]
  dsimp only
  split
  · rfl
  · split <;> try rfl
    split <;> rfl

/-- C1: the claim says a 200 response whose body is valid JSON for the
introspection schema makes `Introspect` return the decoded result and no
error. The code instead closes the response body before decoding
(`_ = response.Body.Close()` precedes the decode), so the decoder reads a
closed stream and `Introspect` returns a decode error even though the body
decodes cleanly, as this concrete evaluation shows. -/
theorem introspect_closed_body_decode_bug :
    decodeIntrospectResponse introBody =
      .ok { uuid := "token-uuid", issuedAt := "2023-05-01T12:00:00Z",
            features := ["signinattempts", "itemusages"] } ∧
    (introspect okEnv introspect200Client "tok").outcome =
      .returned (.error (.decodeFailed "http: read on closed response body")) :=
  ⟨rfl, rfl⟩

/-- C2: in every execution of any of the three operations in which the
transport returns a response, the response body is closed on every exit
path — success, non-200 status, and decode failure alike. -/
theorem response_body_closed_on_every_exit (env : Env) (c : Client) (tok cur : String)
    (req₁ req₂ req₃ : Request) (resp₁ resp₂ resp₃ : HttpResponse)
    (h₁ : newAPIRequest env "GET" tok "/api/auth/introspect" none = .ok req₁)
    (d₁ : c.httpClient req₁ = .ok resp₁)
    (h₂ : newAPIRequest env "POST" tok "/api/v1/signinattempts" (some cur) = .ok req₂)
    (d₂ : c.httpClient req₂ = .ok resp₂)
    (h₃ : newAPIRequest env "POST" tok "/api/v1/itemusages" (some cur) = .ok req₃)
    (d₃ : c.httpClient req₃ = .ok resp₃) :
    (introspect env c tok).bodyClosedAtExit = some true ∧
    (signInAttempts env c tok cur).bodyClosedAtExit = some true ∧
    (itemUsages env c tok cur).bodyClosedAtExit = some true :=
  ⟨introspect_closed_of_response env c tok req₁ resp₁ h₁ d₁,
   signInAttempts_closed_of_response env c tok cur req₂ resp₂ h₂ d₂,
   itemUsages_closed_of_response env c tok cur req₃ resp₃ h₃ d₃⟩

/-- Witness for C2 at a concrete environment and a 403-answering
transport. -/
theorem response_body_closed_on_every_exit_witness :
    (introspect okEnv forbiddenClient "tok").bodyClosedAtExit = some true ∧
    (signInAttempts okEnv forbiddenClient "tok" "cur1").bodyClosedAtExit = some true ∧
    (itemUsages okEnv forbiddenClient "tok" "cur1").bodyClosedAtExit = some true :=
  response_body_closed_on_every_exit okEnv forbiddenClient "tok" "cur1"
    _ _ _ _ _ _ rfl rfl rfl rfl rfl rfl

/-- C3: whenever the transport returns a response whose status code is not
200, each operation returns the `unexpected status code` error carrying the
exact status line received, and no decoded result. -/
theorem non200_yields_unexpected_status (env : Env) (c : Client) (tok cur : String)
    (req₁ req₂ req₃ : Request) (resp₁ resp₂ resp₃ : HttpResponse)
    (h₁ : newAPIRequest env "GET" tok "/api/auth/introspect" none = .ok req₁)
    (d₁ : c.httpClient req₁ = .ok resp₁) (s₁ : resp₁.statusCode ≠ 200)
    (h₂ : newAPIRequest env "POST" tok "/api/v1/signinattempts" (some cur) = .ok req₂)
    (d₂ : c.httpClient req₂ = .ok resp₂) (s₂ : resp₂.statusCode ≠ 200)
    (h₃ : newAPIRequest env "POST" tok "/api/v1/itemusages" (some cur) = .ok req₃)
    (d₃ : c.httpClient req₃ = .ok resp₃) (s₃ : resp₃.statusCode ≠ 200) :
    (introspect env c tok).outcome =
      .returned (.error (.unexpectedStatus resp₁.status)) ∧
    (signInAttempts env c tok cur).outcome =
      .returned (.error (.unexpectedStatus resp₂.status)) ∧
    (itemUsages env c tok cur).outcome =
      .returned (.error (.unexpectedStatus resp₃.status)) := by
  refine ⟨?_, ?_, ?_⟩
  · unfold introspect
    rw [h₁]
    dsimp only
    rw [d₁]
    dsimp only
    rw [if_pos s₁]
  · unfold signInAttempts
    rw [h₂]
    dsimp only
    rw [d₂]
    dsimp only
    rw [if_pos s₂]
  · unfold itemUsages
    rw [h₃]
    dsimp only
    rw [d₃]
    dsimp only
    rw [if_pos s₃]

/-- Witness for C3 at a transport answering 403 Forbidden. -/
theorem non200_yields_unexpected_status_witness :
    (introspect okEnv forbiddenClient "tok").outcome =
      .returned (.error (.unexpectedStatus "403 Forbidden")) ∧
    (signInAttempts okEnv forbiddenClient "tok" "cur1").outcome =
      .returned (.error (.unexpectedStatus "403 Forbidden")) ∧
    (itemUsages okEnv forbiddenClient "tok" "cur1").outcome =
      .returned (.error (.unexpectedStatus "403 Forbidden")) :=
  non200_yields_unexpected_status okEnv forbiddenClient "tok" "cur1"
    _ _ _ _ _ _ rfl rfl (by decide) rfl rfl (by decide) rfl rfl (by decide)

/-- C4: when the 200 response body of `SignInAttempts` or `ItemUsages`
fails to decode as the expected batch schema, the operation returns only
the decode error — never a batch, partial or otherwise. -/
theorem batch_decode_failure_discards_batch (env : Env) (c : Client) (tok cur : String)
    (req₂ req₃ : Request) (resp₂ resp₃ : HttpResponse) (e₂ e₃ : String)
    (h₂ : newAPIRequest env "POST" tok "/api/v1/signinattempts" (some cur) = .ok req₂)
    (d₂ : c.httpClient req₂ = .ok resp₂) (s₂ : resp₂.statusCode = 200)
    (f₂ : (readBody false resp₂.bodyJson).bind decodeSignInAttemptResponse = .error e₂)
    (h₃ : newAPIRequest env "POST" tok "/api/v1/itemusages" (some cur) = .ok req₃)
    (d₃ : c.httpClient req₃ = .ok resp₃) (s₃ : resp₃.statusCode = 200)
    (f₃ : (readBody false resp₃.bodyJson).bind decodeItemUsageResponse = .error e₃) :
    ((signInAttempts env c tok cur).outcome = .returned (.error (.decodeFailed e₂)) ∧
      ∀ batch, (signInAttempts env c tok cur).outcome ≠ .returned (.ok batch)) ∧
    ((itemUsages env c tok cur).outcome = .returned (.error (.decodeFailed e₃)) ∧
      ∀ batch, (itemUsages env c tok cur).outcome ≠ .returned (.ok batch)) := by
  have g₂ : (signInAttempts env c tok cur).outcome =
      .returned (.error (.decodeFailed e₂)) := by
    unfold signInAttempts
    rw [h₂]
    dsimp only
    rw [d₂]
    dsimp only
    rw [if_neg (not_not_intro s₂)]
    cases hr : readBody false resp₂.bodyJson with
    | error e =>
      rw [hr] at f₂
      dsimp only [Except.bind] at f₂
      cases f₂
      rfl
    | ok j =>
      rw [hr] at f₂
      dsimp only [Except.bind] at f₂
      dsimp only
      rw [f₂]
  have g₃ : (itemUsages env c tok cur).outcome =
      .returned (.error (.decodeFailed e₃)) := by
    unfold itemUsages
    rw [h₃]
    dsimp only
    rw [d₃]
    dsimp only
    rw [if_neg (not_not_intro s₃)]
    cases hr : readBody false resp₃.bodyJson with
    | error e =>
      rw [hr] at f₃
      dsimp only [Except.bind] at f₃
      cases f₃
      rfl
    | ok j =>
      rw [hr] at f₃
      dsimp only [Except.bind] at f₃
      dsimp only
      rw [f₃]
  refine ⟨⟨g₂, ?_⟩, ⟨g₃, ?_⟩⟩
  · intro batch hb
    rw [g₂] at hb
    cases hb
  · intro batch hb
    rw [g₃] at hb
    cases hb

/-- Witness for C4: a 200 response whose `items` array contains a number
instead of an object fails the batch decode and yields only the error. -/
theorem batch_decode_failure_discards_batch_witness :
    ((signInAttempts okEnv badItemsClient "tok" "cur1").outcome =
      .returned (.error (.decodeFailed "cannot unmarshal into SignInAttempt")) ∧
      ∀ batch, (signInAttempts okEnv badItemsClient "tok" "cur1").outcome ≠
        .returned (.ok batch)) ∧
    ((itemUsages okEnv badItemsClient "tok" "cur1").outcome =
      .returned (.error (.decodeFailed "cannot unmarshal into ItemUsage")) ∧
      ∀ batch, (itemUsages okEnv badItemsClient "tok" "cur1").outcome ≠
        .returned (.ok batch)) :=
  batch_decode_failure_discards_batch okEnv badItemsClient "tok" "cur1"
    _ _ _ _ _ _ rfl rfl rfl rfl rfl rfl rfl rfl

/-- C5: when the bearer token is undecodable, or decodes but lacks the
events-URL routing claim, each of the three operations fails with the
credential error immediately and issues no HTTP request at all (so the
retrying transport never runs and nothing is retried). -/
theorem credential_error_immediate_no_request (env : Env) (c : Client) (tok cur : String)
    (h : (∃ e, env.parseJWTClaims tok = .error e) ∨
         (∃ jwt e, env.parseJWTClaims tok = .ok jwt ∧ env.getEventsURL jwt = .error e)) :
    ((∃ e, (introspect env c tok).outcome = .returned (.error (.newRequestFailed e))) ∧
      (introspect env c tok).issued = []) ∧
    ((∃ e, (signInAttempts env c tok cur).outcome =
        .returned (.error (.newRequestFailed e))) ∧
      (signInAttempts env c tok cur).issued = []) ∧
    ((∃ e, (itemUsages env c tok cur).outcome =
        .returned (.error (.newRequestFailed e))) ∧
      (itemUsages env c tok cur).issued = []) := by
  have hreq : ∀ method path body, ∃ e,
      newAPIRequest env method tok path body = .err e := by
    intro method path body
    rcases h with ⟨e, he⟩ | ⟨jwt, e, hj, he⟩
    · exact ⟨e, by simp [newAPIRequest, he]⟩
    · exact ⟨e, by simp [newAPIRequest, hj, he]⟩
  refine ⟨?_, ?_, ?_⟩
  · obtain ⟨e, he⟩ := hreq "GET" "/api/auth/introspect" none
    exact ⟨⟨e, by unfold introspect; rw [he]⟩, by unfold introspect; rw [he]⟩
  · obtain ⟨e, he⟩ := hreq "POST" "/api/v1/signinattempts" (some cur)
    exact ⟨⟨e, by unfold signInAttempts; rw [he]⟩, by unfold signInAttempts; rw [he]⟩
  · obtain ⟨e, he⟩ := hreq "POST" "/api/v1/itemusages" (some cur)
    exact ⟨⟨e, by unfold itemUsages; rw [he]⟩, by unfold itemUsages; rw [he]⟩

/-- Witness for C5 at an environment whose token does not decode. -/
theorem credential_error_immediate_no_request_witness :
    ((∃ e, (introspect badTokenEnv forbiddenClient "x").outcome =
        .returned (.error (.newRequestFailed e))) ∧
      (introspect badTokenEnv forbiddenClient "x").issued = []) ∧
    ((∃ e, (signInAttempts badTokenEnv forbiddenClient "x" "").outcome =
        .returned (.error (.newRequestFailed e))) ∧
      (signInAttempts badTokenEnv forbiddenClient "x" "").issued = []) ∧
    ((∃ e, (itemUsages badTokenEnv forbiddenClient "x" "").outcome =
        .returned (.error (.newRequestFailed e))) ∧
      (itemUsages badTokenEnv forbiddenClient "x" "").issued = []) :=
  credential_error_immediate_no_request badTokenEnv forbiddenClient "x" ""
    (.inl ⟨"failed to decode token", rfl⟩)

/-- C6: for every credential and cursor (the empty cursor included),
`SignInAttempts` issues a POST to `/api/v1/signinattempts` with the raw
cursor string as body, and `ItemUsages` a POST to the distinct path
`/api/v1/itemusages` with the raw cursor string as body. -/
theorem post_fixed_paths_with_raw_cursor_body (env : Env) (c : Client)
    (tok cur : String) (jwt : JWTClaims) (base : String)
    (hp : env.parseJWTClaims tok = .ok jwt)
    (hu : env.getEventsURL jwt = .ok base)
    (u₂ : env.urlOK (base ++ "/api/v1/signinattempts") = true)
    (u₃ : env.urlOK (base ++ "/api/v1/itemusages") = true) :
    (signInAttempts env c tok cur).issued =
      [{ method := "POST", url := base ++ "/api/v1/signinattempts", body := some cur,
         headers := [("Authorization", "Bearer " ++ tok),
                     ("User-Agent", DefaultUserAgent env)] }] ∧
    (itemUsages env c tok cur).issued =
      [{ method := "POST", url := base ++ "/api/v1/itemusages", body := some cur,
         headers := [("Authorization", "Bearer " ++ tok),
                     ("User-Agent", DefaultUserAgent env)] }] ∧
    "/api/v1/signinattempts" ≠ "/api/v1/itemusages" :=
  ⟨signInAttempts_issued_of_ok env c tok cur _
      (newAPIRequest_ok env tok jwt base "POST" "/api/v1/signinattempts" (some cur) hp hu u₂),
   itemUsages_issued_of_ok env c tok cur _
      (newAPIRequest_ok env tok jwt base "POST" "/api/v1/itemusages" (some cur) hp hu u₃),
   by decide⟩

/-- Witness for C6 with the empty cursor. -/
theorem post_fixed_paths_with_raw_cursor_body_witness :
    (signInAttempts okEnv forbiddenClient "tok" "").issued =
      [{ method := "POST",
         url := "https://events.example.com" ++ "/api/v1/signinattempts",
         body := some "",
         headers := [("Authorization", "Bearer " ++ "tok"),
                     ("User-Agent", DefaultUserAgent okEnv)] }] ∧
    (itemUsages okEnv forbiddenClient "tok" "").issued =
      [{ method := "POST",
         url := "https://events.example.com" ++ "/api/v1/itemusages",
         body := some "",
         headers := [("Authorization", "Bearer " ++ "tok"),
                     ("User-Agent", DefaultUserAgent okEnv)] }] ∧
    "/api/v1/signinattempts" ≠ "/api/v1/itemusages" :=
  post_fixed_paths_with_raw_cursor_body okEnv forbiddenClient "tok" ""
    sampleClaims "https://events.example.com" rfl rfl rfl rfl

/-- C7: every request built for any of the three operations carries
`Authorization: Bearer <credential>` and the fixed version-stamped
`User-Agent` identifying the client product and its build version. -/
theorem every_request_has_bearer_and_user_agent (env : Env) (c : Client)
    (tok cur : String) (jwt : JWTClaims) (base : String)
    (hp : env.parseJWTClaims tok = .ok jwt)
    (hu : env.getEventsURL jwt = .ok base)
    (u₁ : env.urlOK (base ++ "/api/auth/introspect") = true)
    (u₂ : env.urlOK (base ++ "/api/v1/signinattempts") = true)
    (u₃ : env.urlOK (base ++ "/api/v1/itemusages") = true) :
    (∀ r ∈ (introspect env c tok).issued,
        ("Authorization", "Bearer " ++ tok) ∈ r.headers ∧
        ("User-Agent", DefaultUserAgent env) ∈ r.headers) ∧
    (∀ r ∈ (signInAttempts env c tok cur).issued,
        ("Authorization", "Bearer " ++ tok) ∈ r.headers ∧
        ("User-Agent", DefaultUserAgent env) ∈ r.headers) ∧
    (∀ r ∈ (itemUsages env c tok cur).issued,
        ("Authorization", "Bearer " ++ tok) ∈ r.headers ∧
        ("User-Agent", DefaultUserAgent env) ∈ r.headers) ∧
    DefaultUserAgent env = "1Password Events API Beats / " ++ env.version := by
  refine ⟨?_, ?_, ?_, rfl⟩
  · rw [introspect_issued_of_ok env c tok _
      (newAPIRequest_ok env tok jwt base "GET" "/api/auth/introspect" none hp hu u₁)]
    intro r hr
    rw [List.mem_singleton] at hr
    subst hr
    exact ⟨List.mem_cons_self _ _, List.mem_cons_of_mem _ (List.mem_cons_self _ _)⟩
  · rw [signInAttempts_issued_of_ok env c tok cur _
      (newAPIRequest_ok env tok jwt base "POST" "/api/v1/signinattempts" (some cur) hp hu u₂)]
    intro r hr
    rw [List.mem_singleton] at hr
    subst hr
    exact ⟨List.mem_cons_self _ _, List.mem_cons_of_mem _ (List.mem_cons_self _ _)⟩
  · rw [itemUsages_issued_of_ok env c tok cur _
      (newAPIRequest_ok env tok jwt base "POST" "/api/v1/itemusages" (some cur) hp hu u₃)]
    intro r hr
    rw [List.mem_singleton] at hr
    subst hr
    exact ⟨List.mem_cons_self _ _, List.mem_cons_of_mem _ (List.mem_cons_self _ _)⟩

/-- Witness for C7 at a concrete environment. -/
theorem every_request_has_bearer_and_user_agent_witness :
    (∀ r ∈ (introspect okEnv forbiddenClient "tok").issued,
        ("Authorization", "Bearer " ++ "tok") ∈ r.headers ∧
        ("User-Agent", DefaultUserAgent okEnv) ∈ r.headers) ∧
    (∀ r ∈ (signInAttempts okEnv forbiddenClient "tok" "c0").issued,
        ("Authorization", "Bearer " ++ "tok") ∈ r.headers ∧
        ("User-Agent", DefaultUserAgent okEnv) ∈ r.headers) ∧
    (∀ r ∈ (itemUsages okEnv forbiddenClient "tok" "c0").issued,
        ("Authorization", "Bearer " ++ "tok") ∈ r.headers ∧
        ("User-Agent", DefaultUserAgent okEnv) ∈ r.headers) ∧
    DefaultUserAgent okEnv = "1Password Events API Beats / " ++ okEnv.version :=
  every_request_has_bearer_and_user_agent okEnv forbiddenClient "tok" "c0"
    sampleClaims "https://events.example.com" rfl rfl rfl rfl rfl

/-- A single decoding step on a key that is not `details` leaves the
`details` field unchanged. -/
theorem setSignInAttemptField_preserves_details (acc : SignInAttempt)
    (kv : String × Json) (acc' : SignInAttempt)
    (hk : keyMatches kv.1 "details" = false)
    (h : setSignInAttemptField acc kv = .ok acc') : acc'.details = acc.details := by
  unfold setSignInAttemptField at h
  repeat' split at h
  all_goals first
    | (obtain ⟨s, hx, rfl⟩ := exceptMap_eq_ok h; rfl)
    | simp_all

/-- Folding the fields of an object none of whose keys matches `details`
leaves the `details` field at its starting value. -/
theorem foldl_setSignInAttemptField_details (fs : List (String × Json)) :
    ∀ acc r, (∀ kv ∈ fs, keyMatches kv.1 "details" = false) →
      fs.foldlM setSignInAttemptField acc = .ok r → r.details = acc.details := by
  induction fs with
  | nil =>
    intro acc r _ h
    cases h
    rfl
  | cons kv rest ih =>
    intro acc r hk h
    rw [List.foldlM_cons] at h
    cases hs : setSignInAttemptField acc kv with
    | error e =>
      rw [hs] at h
      simp only [Bind.bind, Except.bind] at h
      cases h
    | ok acc' =>
      rw [hs] at h
      simp only [Bind.bind, Except.bind] at h
      have hstep : acc'.details = acc.details :=
        setSignInAttemptField_preserves_details acc kv acc'
          (hk kv (List.mem_cons_self kv rest)) hs
      rw [← hstep]
      exact ih acc' r (fun kv' hkv' => hk kv' (List.mem_cons_of_mem kv hkv')) h

/-- C8: decoding a `SignInAttempt` object that lacks the `details` key
yields `details = none` (not an error from the absence and not a
default-valued details object), and encoding then decoding a record whose
`details` is absent reproduces the record, absence included. -/
theorem absent_details_decodes_none_and_roundtrips
    (fs : List (String × Json)) (a b : SignInAttempt)
    (hfs : ∀ kv ∈ fs, keyMatches kv.1 "details" = false)
    (hdec : decodeSignInAttempt (.obj fs) = .ok a)
    (hb : b.details = none) :
    a.details = none ∧
    decodeSignInAttempt (encodeSignInAttempt b) = .ok b := by
  constructor
  · have hz : a.details = zeroSignInAttempt.details := by
      apply foldl_setSignInAttemptField_details fs zeroSignInAttempt a hfs
      exact hdec
    rw [hz]
    rfl
  · cases b with
    | mk uuid sessionUuid timestamp country category type details targetUser client =>
      dsimp only at hb
      subst hb
      cases targetUser
      cases client
      rfl

/-- Witness for C8: a full well-formed object with no `details` key
decodes with `details = none`, and the zero record round-trips. -/
theorem absent_details_decodes_none_and_roundtrips_witness :
    ({ uuid := "E1", sessionUuid := "S1", timestamp := "2023-05-01T12:00:00Z",
       country := "CA", category := "success", type := "credentials_ok",
       details := none,
       targetUser := { uuid := "U1", name := "Alice", email := "alice@example.com" },
       client := { appName := "1Password", appVersion := "", platformName := "",
                   platformVersion := "", osName := "", osVersion := "",
                   ipAddress := "" } } : SignInAttempt).details = none ∧
    decodeSignInAttempt (encodeSignInAttempt zeroSignInAttempt) =
      .ok zeroSignInAttempt :=
  absent_details_decodes_none_and_roundtrips noDetailsFields _ zeroSignInAttempt
    (by decide) rfl rfl

/-- C9: two calls to `SignInAttempts` with the same credential and cursor
against the same transport behaviour return identical results, and the
call leaves the client exactly as it was: no client-side state influences
the outcome. -/
theorem signInAttempts_idempotent_no_client_state (env : Env) (c : Client)
    (tok cur : String) :
    (signInAttemptsS env c tok cur).2 = c ∧
    (signInAttemptsS env ((signInAttemptsS env c tok cur).2) tok cur).1 =
      (signInAttemptsS env c tok cur).1 :=
  ⟨rfl, rfl⟩

/-- Counterexample to C10 as stated: at a bearer token whose claims parse
and yield an events URL, but whose events URL Go request construction
rejects, `newAPIRequest` neither returns a request nor surfaces an error:
the discarded construction error leaves a nil request and the first
header-setting call dereferences a nil pointer, crashing the operation. -/
theorem newAPIRequest_nilDeref_counterexample :
    badURLEnv.parseJWTClaims "tok" = .ok sampleClaims ∧
    badURLEnv.getEventsURL sampleClaims = .ok "://missing-scheme" ∧
    newAPIRequest badURLEnv "GET" "tok" "/api/auth/introspect" none = .nilDeref ∧
    (introspect badURLEnv forbiddenClient "tok").outcome = .crashed :=
  ⟨rfl, rfl, rfl, rfl⟩

/-- C10 as amended: for every bearer token whose claims parse and yield an
events URL, and for each of the three operations' method/path pairs,
`newAPIRequest` never surfaces an error from HTTP request construction:
when the URL parses it returns a non-nil request and a nil error (so the
header-setting calls are safe), and when construction fails the discarded
error leaves a nil request whose header-setting call panics. -/
theorem newAPIRequest_discards_construction_error (env : Env) (tok cur : String)
    (jwt : JWTClaims) (base : String)
    (hp : env.parseJWTClaims tok = .ok jwt)
    (hu : env.getEventsURL jwt = .ok base) :
    ((∀ e, newAPIRequest env "GET" tok "/api/auth/introspect" none ≠ .err e) ∧
      (env.urlOK (base ++ "/api/auth/introspect") = true →
        ∃ r, newAPIRequest env "GET" tok "/api/auth/introspect" none = .ok r) ∧
      (env.urlOK (base ++ "/api/auth/introspect") = false →
        newAPIRequest env "GET" tok "/api/auth/introspect" none = .nilDeref)) ∧
    ((∀ e, newAPIRequest env "POST" tok "/api/v1/signinattempts" (some cur) ≠ .err e) ∧
      (env.urlOK (base ++ "/api/v1/signinattempts") = true →
        ∃ r, newAPIRequest env "POST" tok "/api/v1/signinattempts" (some cur) = .ok r) ∧
      (env.urlOK (base ++ "/api/v1/signinattempts") = false →
        newAPIRequest env "POST" tok "/api/v1/signinattempts" (some cur) = .nilDeref)) ∧
    ((∀ e, newAPIRequest env "POST" tok "/api/v1/itemusages" (some cur) ≠ .err e) ∧
      (env.urlOK (base ++ "/api/v1/itemusages") = true →
        ∃ r, newAPIRequest env "POST" tok "/api/v1/itemusages" (some cur) = .ok r) ∧
      (env.urlOK (base ++ "/api/v1/itemusages") = false →
        newAPIRequest env "POST" tok "/api/v1/itemusages" (some cur) = .nilDeref)) :=
  ⟨⟨newAPIRequest_ne_err env tok jwt base "GET" "/api/auth/introspect" none hp hu,
    fun hurl => ⟨_, newAPIRequest_ok env tok jwt base "GET" "/api/auth/introspect" none hp hu hurl⟩,
    fun hurl => newAPIRequest_nilDeref env tok jwt base "GET" "/api/auth/introspect" none hp hu hurl⟩,
   ⟨newAPIRequest_ne_err env tok jwt base "POST" "/api/v1/signinattempts" (some cur) hp hu,
    fun hurl => ⟨_, newAPIRequest_ok env tok jwt base "POST" "/api/v1/signinattempts" (some cur) hp hu hurl⟩,
    fun hurl => newAPIRequest_nilDeref env tok jwt base "POST" "/api/v1/signinattempts" (some cur) hp hu hurl⟩,
   ⟨newAPIRequest_ne_err env tok jwt base "POST" "/api/v1/itemusages" (some cur) hp hu,
    fun hurl => ⟨_, newAPIRequest_ok env tok jwt base "POST" "/api/v1/itemusages" (some cur) hp hu hurl⟩,
    fun hurl => newAPIRequest_nilDeref env tok jwt base "POST" "/api/v1/itemusages" (some cur) hp hu hurl⟩⟩

/-- Witness for the amended C10 at a concrete environment. -/
theorem newAPIRequest_discards_construction_error_witness :
    ((∀ e, newAPIRequest okEnv "GET" "tok" "/api/auth/introspect" none ≠ .err e) ∧
      (okEnv.urlOK ("https://events.example.com" ++ "/api/auth/introspect") = true →
        ∃ r, newAPIRequest okEnv "GET" "tok" "/api/auth/introspect" none = .ok r) ∧
      (okEnv.urlOK ("https://events.example.com" ++ "/api/auth/introspect") = false →
        newAPIRequest okEnv "GET" "tok" "/api/auth/introspect" none = .nilDeref)) ∧
    ((∀ e, newAPIRequest okEnv "POST" "tok" "/api/v1/signinattempts" (some "") ≠ .err e) ∧
      (okEnv.urlOK ("https://events.example.com" ++ "/api/v1/signinattempts") = true →
        ∃ r, newAPIRequest okEnv "POST" "tok" "/api/v1/signinattempts" (some "") = .ok r) ∧
      (okEnv.urlOK ("https://events.example.com" ++ "/api/v1/signinattempts") = false →
        newAPIRequest okEnv "POST" "tok" "/api/v1/signinattempts" (some "") = .nilDeref)) ∧
    ((∀ e, newAPIRequest okEnv "POST" "tok" "/api/v1/itemusages" (some "") ≠ .err e) ∧
      (okEnv.urlOK ("https://events.example.com" ++ "/api/v1/itemusages") = true →
        ∃ r, newAPIRequest okEnv "POST" "tok" "/api/v1/itemusages" (some "") = .ok r) ∧
      (okEnv.urlOK ("https://events.example.com" ++ "/api/v1/itemusages") = false →
        newAPIRequest okEnv "POST" "tok" "/api/v1/itemusages" (some "") = .nilDeref)) :=
  newAPIRequest_discards_construction_error okEnv "tok" "" sampleClaims
    "https://events.example.com" rfl rfl

end EventsAPI
